import Mathlib

/-!  Verification of the Marbar mocap BVH pipeline.

Shallow embedding of `src/export/bvh_exporter.py` (class BVHExporter) and
`src/realtime/websocket_server.py` (class MocapWebSocketServer).

Modelling conventions:
* Python floats are modelled as real numbers; numpy vector operations are
  spelled out componentwise on a `Vec3` record.
* `np.arctan2`, `np.degrees`, `np.linalg.norm`, `np.clip` are embedded as the
  real functions `atan2`, `degrees`, `vnorm`, `clip` below.
* The Python format `.6f` is embedded as `fmt6`, rounding to the nearest
  multiple of 10 ^ (-6) (the exact tie-breaking on the binary double is
  abstracted; no claim depends on it) and printing a sign, the integer part,
  a dot and exactly six fraction digits.
* Writing the BVH file is modelled by the file content that `export` would
  write: `exportString` returns `none` when `export` returns early without
  writing anything.
* `json.dumps` output is modelled by the inductive `Message`: the two JSON
  shapes the server ever sends are structurally distinguished.
* A websocket client is modelled by an id plus a `sendFails` flag: `sendFails`
  marks a closed/broken connection, on which `client.send` raises and whose
  `wait_closed` has returned, so that the `finally` block of `handler`
  (websocket_server.py lines 34-38) removes it from the client set; that
  removal is the separate step `handlerCleanup`.
  `asyncio.gather` with `return_exceptions` set collects per-client results
  and exceptions alike and never raises; `gatherRE` embeds exactly that.
-/

namespace Mocap

/-- One MediaPipe body landmark: a dict with numeric `x`, `y`, `z` and an
optional `visibility` (the exporter never reads `visibility`). -/
structure Landmark where
  x : ℝ
  y : ℝ
  z : ℝ
  visibility : Option ℝ := none

instance : Inhabited Landmark := ⟨⟨0, 0, 0, none⟩⟩

/-- A 3-vector, standing for the `np.array([x, y, z])` values of the exporter. -/
structure Vec3 where
  x : ℝ
  y : ℝ
  z : ℝ

def Vec3.add (a b : Vec3) : Vec3 := ⟨a.x + b.x, a.y + b.y, a.z + b.z⟩

def Vec3.sub (a b : Vec3) : Vec3 := ⟨a.x - b.x, a.y - b.y, a.z - b.z⟩

/-- Componentwise division of an `np.array` by a scalar. -/
noncomputable def Vec3.sdiv (a : Vec3) (s : ℝ) : Vec3 := ⟨a.x / s, a.y / s, a.z / s⟩

/-- Euclidean norm, `np.linalg.norm`. -/
noncomputable def vnorm (v : Vec3) : ℝ := Real.sqrt (v.x ^ 2 + v.y ^ 2 + v.z ^ 2)

/-- The skeleton hierarchy string literal returned by
`BVHExporter._create_skeleton_hierarchy` (bvh_exporter.py lines 59-161),
verbatim. -/
def skeletonHierarchy : String :=
"HIERARCHY\nROOT Hips\n\x7b\n    OFFSET 0.0 0.0 0.0\n    CHANNELS 6 Xposition Yposition Zposition Zrotation Xrotation Yrotation\n    JOINT Chest\n    \x7b\n        OFFSET 0.0 10.0 0.0\n        CHANNELS 3 Zrotation Xrotation Yrotation\n        JOINT Neck\n        \x7b\n            OFFSET 0.0 10.0 0.0\n            CHANNELS 3 Zrotation Xrotation Yrotation\n            JOINT Head\n            \x7b\n                OFFSET 0.0 5.0 0.0\n                CHANNELS 3 Zrotation Xrotation Yrotation\n                End Site\n                \x7b\n                    OFFSET 0.0 5.0 0.0\n                \x7d\n            \x7d\n        \x7d\n        JOINT LeftShoulder\n        \x7b\n            OFFSET -5.0 8.0 0.0\n            CHANNELS 3 Zrotation Xrotation Yrotation\n            JOINT LeftElbow\n            \x7b\n                OFFSET -10.0 0.0 0.0\n                CHANNELS 3 Zrotation Xrotation Yrotation\n                JOINT LeftWrist\n                \x7b\n                    OFFSET -10.0 0.0 0.0\n                    CHANNELS 3 Zrotation Xrotation Yrotation\n                    End Site\n                    \x7b\n                        OFFSET -3.0 0.0 0.0\n                    \x7d\n                \x7d\n            \x7d\n        \x7d\n        JOINT RightShoulder\n        \x7b\n            OFFSET 5.0 8.0 0.0\n            CHANNELS 3 Zrotation Xrotation Yrotation\n            JOINT RightElbow\n            \x7b\n                OFFSET 10.0 0.0 0.0\n                CHANNELS 3 Zrotation Xrotation Yrotation\n                JOINT RightWrist\n                \x7b\n                    OFFSET 10.0 0.0 0.0\n                    CHANNELS 3 Zrotation Xrotation Yrotation\n                    End Site\n                    \x7b\n                        OFFSET 3.0 0.0 0.0\n                    \x7d\n                \x7d\n            \x7d\n        \x7d\n    \x7d\n    JOINT LeftHip\n    \x7b\n        OFFSET -5.0 0.0 0.0\n        CHANNELS 3 Zrotation Xrotation Yrotation\n        JOINT LeftKnee\n        \x7b\n            OFFSET 0.0 -15.0 0.0\n            CHANNELS 3 Zrotation Xrotation Yrotation\n            JOINT LeftAnkle\n            \x7b\n                OFFSET 0.0 -15.0 0.0\n                CHANNELS 3 Zrotation Xrotation Yrotation\n                End Site\n                \x7b\n                    OFFSET 0.0 -3.0 5.0\n                \x7d\n            \x7d\n        \x7d\n    \x7d\n    JOINT RightHip\n    \x7b\n        OFFSET 5.0 0.0 0.0\n        CHANNELS 3 Zrotation Xrotation Yrotation\n        JOINT RightKnee\n        \x7b\n            OFFSET 0.0 -15.0 0.0\n            CHANNELS 3 Zrotation Xrotation Yrotation\n            JOINT RightAnkle\n            \x7b\n                OFFSET 0.0 -15.0 0.0\n                CHANNELS 3 Zrotation Xrotation Yrotation\n                End Site\n                \x7b\n                    OFFSET 0.0 -3.0 5.0\n                \x7d\n            \x7d\n        \x7d\n    \x7d\n\x7d\n"

/-- Sum of the numbers announced by the `CHANNELS <n>` declarations of a
hierarchy string (every count in the canonical hierarchy is one digit). -/
def channelsAux : List Char → Nat
  | 'C' :: 'H' :: 'A' :: 'N' :: 'N' :: 'E' :: 'L' :: 'S' :: ' ' :: d :: rest =>
      (d.toNat - 48) + channelsAux rest
  | _ :: rest => channelsAux rest
  | [] => 0

/-- Total channel count declared by a hierarchy string. -/
def channelTotal (s : String) : Nat := channelsAux s.data

/-! MediaPipe pose landmark indices (class attributes of BVHExporter). -/

def NOSE : Nat := 0
def LEFT_SHOULDER : Nat := 11
def RIGHT_SHOULDER : Nat := 12
def LEFT_ELBOW : Nat := 13
def RIGHT_ELBOW : Nat := 14
def LEFT_WRIST : Nat := 15
def RIGHT_WRIST : Nat := 16
def LEFT_HIP : Nat := 23
def RIGHT_HIP : Nat := 24
def LEFT_KNEE : Nat := 25
def RIGHT_KNEE : Nat := 26
def LEFT_ANKLE : Nat := 27
def RIGHT_ANKLE : Nat := 28

/-- Four-quadrant arctangent `np.arctan2 y x`, valued in `[-π, π]`. -/
noncomputable def atan2 (y x : ℝ) : ℝ :=
  if 0 < x then Real.arctan (y / x)
  else if x < 0 then
    (if 0 ≤ y then Real.arctan (y / x) + Real.pi else Real.arctan (y / x) - Real.pi)
  else if 0 < y then Real.pi / 2
  else if y < 0 then -(Real.pi / 2)
  else 0

/-- Radians to degrees, `np.degrees`. -/
noncomputable def degrees (r : ℝ) : ℝ := r * (180 / Real.pi)

/-- Clamp `np.clip a lo hi = min (max a lo) hi`. -/
noncomputable def clip (a lo hi : ℝ) : ℝ := min (max a lo) hi

/-- `BVHExporter._calc_bone_rot` (lines 276-303): rotation from a bone
direction vector, returned as the channel-ordered list
`[angle_z, angle_x, angle_y]`.  When the direction length is below 0.001 the
degenerate guard returns `[0, 0, 0]` before any normalization division. -/
noncomputable def calc_bone_rot (fromPos toPos : Vec3) : List ℝ :=
  let direction := Vec3.sub toPos fromPos
  let length := vnorm direction
  if length < 0.001 then [0, 0, 0]
  else
    let dir := Vec3.sdiv direction length
    let angle_y := degrees (atan2 dir.x dir.z)
    let horizontal_dist := Real.sqrt (dir.x ^ 2 + dir.z ^ 2)
    let angle_x := degrees (atan2 dir.y horizontal_dist)
    let angle_z : ℝ := 0
    [angle_z, clip angle_x (-180) 180, clip angle_y (-180) 180]

/-- `BVHExporter._calc_rotation_from_points` (lines 305-326): torso rotation
from three points; the normalized side vector is computed but unused, yaw
comes from the horizontal projection of the forward vector, and tilt and
twist are literally zero. -/
noncomputable def calc_rotation_from_points (left right front : Vec3) : List ℝ :=
  let side0 := Vec3.sub right left
  let _side := Vec3.sdiv side0 (vnorm side0 + 1e-6)
  let center := Vec3.sdiv (Vec3.add left right) 2
  let to_front0 := Vec3.sub front center
  let to_front := Vec3.sdiv to_front0 (vnorm to_front0 + 1e-6)
  let angle_y := degrees (atan2 to_front.x to_front.z)
  let angle_x : ℝ := 0
  let angle_z : ℝ := 0
  [angle_z, angle_x, angle_y]

/-- The inner helper `to_bvh_space` of `_landmarks_to_bvh_frame` (lines
189-195): MediaPipe normalized coordinates to BVH space (cm, Y-up). -/
noncomputable def to_bvh_space (lm : Landmark) : Vec3 :=
  ⟨(lm.x - 0.5) * 170, (0.5 - lm.y) * 170, -lm.z * 170 * 2⟩

/-- `BVHExporter._landmarks_to_bvh_frame` (lines 178-274).  Index access
`landmarks[i]` is embedded with a default landmark; both callers guard the
list length at 33 or more, so the default is never reached there. -/
noncomputable def landmarks_to_bvh_frame (landmarks : List Landmark) : List ℝ :=
  let left_hip := to_bvh_space (landmarks.getD LEFT_HIP default)
  let right_hip := to_bvh_space (landmarks.getD RIGHT_HIP default)
  let left_shoulder := to_bvh_space (landmarks.getD LEFT_SHOULDER default)
  let right_shoulder := to_bvh_space (landmarks.getD RIGHT_SHOULDER default)
  let left_elbow := to_bvh_space (landmarks.getD LEFT_ELBOW default)
  let right_elbow := to_bvh_space (landmarks.getD RIGHT_ELBOW default)
  let left_wrist := to_bvh_space (landmarks.getD LEFT_WRIST default)
  let right_wrist := to_bvh_space (landmarks.getD RIGHT_WRIST default)
  let left_knee := to_bvh_space (landmarks.getD LEFT_KNEE default)
  let right_knee := to_bvh_space (landmarks.getD RIGHT_KNEE default)
  let left_ankle := to_bvh_space (landmarks.getD LEFT_ANKLE default)
  let right_ankle := to_bvh_space (landmarks.getD RIGHT_ANKLE default)
  let nose := to_bvh_space (landmarks.getD NOSE default)
  let hip_center := Vec3.sdiv (Vec3.add left_hip right_hip) 2
  let shoulder_center := Vec3.sdiv (Vec3.add left_shoulder right_shoulder) 2
  [hip_center.x, hip_center.y, hip_center.z]
    ++ calc_rotation_from_points left_hip right_hip left_shoulder
    ++ calc_bone_rot hip_center shoulder_center
    ++ [0, 0, 0]
    ++ calc_bone_rot shoulder_center nose
    ++ [0, 0, 0]
    ++ calc_bone_rot left_shoulder left_elbow
    ++ calc_bone_rot left_elbow left_wrist
    ++ [0, 0, 0]
    ++ calc_bone_rot right_shoulder right_elbow
    ++ calc_bone_rot right_elbow right_wrist
    ++ [0, 0, 0]
    ++ calc_bone_rot left_hip left_knee
    ++ calc_bone_rot left_knee left_ankle
    ++ [0, 0, 0]
    ++ calc_bone_rot right_hip right_knee
    ++ calc_bone_rot right_knee right_ankle

/-- State of a `BVHExporter` instance.  The Python constructor also renders
`frame_time` textually in the motion header; since doubles are modelled as
reals, that rendering is carried alongside as `frame_time_repr`. -/
structure BVHExporter where
  frame_time : ℝ
  frames : List (List ℝ)
  skeleton : String
  frame_time_repr : String

/-- `BVHExporter.__init__` with the default `frame_time = 0.033333`, whose
Python text rendering is `0.033333`. -/
noncomputable def BVHExporter.init : BVHExporter :=
  ⟨0.033333, [], skeletonHierarchy, "0.033333"⟩

/-- `BVHExporter.add_frame` (lines 163-176): lists with fewer than 33
landmarks are dropped with a console warning; any other list is converted and
appended. -/
noncomputable def add_frame (e : BVHExporter) (landmarks : List Landmark) : BVHExporter :=
  if landmarks.length < 33 then e
  else { e with frames := e.frames ++ [landmarks_to_bvh_frame landmarks] }

/-- Exactly six zero-padded decimal digits of a fraction numerator below
10 ^ 6, most significant first. -/
def fracDigits (m : Nat) : String :=
  String.mk ((List.range 6).map (fun i => Nat.digitChar (m / 10 ^ (5 - i) % 10)))

/-- The Python format `.6f` applied to a value: sign, integer part, dot and
exactly six fraction digits of the value rounded at the sixth decimal. -/
noncomputable def fmt6 (x : ℝ) : String :=
  let n : ℤ := round (x * 1000000)
  (if n < 0 then "-" else "")
    ++ toString (n.natAbs / 1000000) ++ "." ++ fracDigits (n.natAbs % 1000000)

/-- One motion-data line: the frame scalars formatted with `.6f` and joined
by single spaces (bvh_exporter.py line 351, websocket_server.py line 87). -/
noncomputable def frameLine (f : List ℝ) : String :=
  String.intercalate " " (f.map fmt6)

/-- `BVHExporter.export` (lines 328-356), modelled by the file content it
writes: `none` when the early guard `if not self.frames` fires and no file is
written at all, otherwise the full text passed to `f.write`. -/
noncomputable def exportString (e : BVHExporter) : Option String :=
  if e.frames.isEmpty then none
  else
    some (e.skeleton ++ "\n" ++ "MOTION\n"
      ++ "Frames: " ++ toString e.frames.length ++ "\n"
      ++ "Frame Time: " ++ e.frame_time_repr ++ "\n"
      ++ String.join (e.frames.map (fun f => frameLine f ++ "\n")))

/-! Embedding of `src/realtime/websocket_server.py`. -/

/-- A connected websocket client: `sendFails` marks a closed/broken
connection on which `send` raises. -/
structure Client where
  id : Nat
  sendFails : Bool
deriving DecidableEq

/-- The only two JSON shapes `send_data` ever serializes: the full payload
passthrough `json.dumps(data)` and the small BVH acknowledgment
`json.dumps({format, frame, timestamp})` (lines 58-62). -/
inductive Message where
  | passthrough (timestamp : Option ℝ) (body : List Landmark)
  | ack (frame : Nat) (timestamp : ℝ)

/-- The payload dict handed to `send_data`: the fields its control flow and
messages depend on (`data.get('body', [])` and `data.get('timestamp', 0)`). -/
structure Payload where
  body : List Landmark := []
  timestamp : Option ℝ := none

/-- State of a `MocapWebSocketServer`.  The Python constructor creates
`bvh_exporter` only when `format` is the string `bvh`; it is carried here
unconditionally and only the `bvh` branch ever touches it. -/
structure MocapWebSocketServer where
  clients : List Client
  format : String
  bvh_exporter : BVHExporter

/-- `MocapWebSocketServer.__init__` for a given format string. -/
noncomputable def MocapWebSocketServer.init (format : String) : MocapWebSocketServer :=
  ⟨[], format, BVHExporter.init⟩

/-- The exception a send on a broken connection raises. -/
inductive PyErr where
  | connectionClosed
deriving DecidableEq

/-- `client.send(message)`: raises on a broken connection. -/
def clientSend (c : Client) (m : Message) : Except PyErr (Nat × Message) :=
  if c.sendFails then .error .connectionClosed else .ok (c.id, m)

/-- `asyncio.gather` with `return_exceptions` set: every task runs, results
and exceptions are collected alike and nothing is raised. -/
def gatherRE (xs : List (Except PyErr (Nat × Message))) :
    List (Except PyErr (Nat × Message)) := xs

/-- Per-client fan-out of one message over the current client list; the
successful sends are the deliveries that took place. -/
def deliveries (cs : List Client) (m : Message) : List (Nat × Message) :=
  (gatherRE (cs.map (fun c => clientSend c m))).filterMap Except.toOption

/-- `MocapWebSocketServer.send_data` (lines 47-68) as a state transition
returning the new server state and the list of performed deliveries
`(client id, message)`.  The `Except` layer carries any exception the call
would propagate to its caller; the gather call swallows per-client send
failures, so every branch ends in `ok`. -/
noncomputable def send_data (s : MocapWebSocketServer) (data : Payload) :
    Except PyErr (MocapWebSocketServer × List (Nat × Message)) :=
  if s.clients.isEmpty then .ok (s, [])
  else if s.format = "json" then
    .ok (s, deliveries s.clients (.passthrough data.timestamp data.body))
  else if s.format = "bvh" then
    (if data.body.isEmpty = false ∧ data.body.length = 33 then
      let e := add_frame s.bvh_exporter data.body
      .ok ({ s with bvh_exporter := e },
        deliveries s.clients (.ack e.frames.length (data.timestamp.getD 0)))
    else .ok (s, []))
  else
    .ok (s, deliveries s.clients (.passthrough data.timestamp data.body))

/-- The `finally` block of `handler` (lines 34-38), run once the connection
of a client has closed or errored: that client is removed from the set. -/
def handlerCleanup (s : MocapWebSocketServer) : MocapWebSocketServer :=
  { s with clients := s.clients.filter (fun c => !c.sendFails) }

/-- The lines of `MocapWebSocketServer._build_bvh_string` (lines 79-90):
skeleton, MOTION, Frames, Frame Time, then one line per accumulated frame. -/
noncomputable def build_bvh_lines (s : MocapWebSocketServer) : List String :=
  [s.bvh_exporter.skeleton, "MOTION",
    "Frames: " ++ toString s.bvh_exporter.frames.length,
    "Frame Time: " ++ s.bvh_exporter.frame_time_repr]
  ++ s.bvh_exporter.frames.map frameLine

/-- `MocapWebSocketServer._build_bvh_string`: the lines joined by newlines. -/
noncomputable def build_bvh_string (s : MocapWebSocketServer) : String :=
  String.intercalate "\n" (build_bvh_lines s)

/-- `MocapWebSocketServer.get_bvh_data` (lines 70-77): the accumulated BVH
text, or the empty string unless the format is `bvh` and frames exist. -/
noncomputable def get_bvh_data (s : MocapWebSocketServer) : String :=
  if s.format = "bvh" ∧ s.bvh_exporter.frames.isEmpty = false then
    build_bvh_string s
  else ""

/-! Concrete sample values used by witnesses and counterexamples. -/

/-- A valid 33-entry landmark list (all landmarks at the origin). -/
def sample33 : List Landmark := List.replicate 33 default

/-- An oversized 34-entry landmark list. -/
def sample34 : List Landmark := List.replicate 34 default

/-- A payload carrying a valid 33-landmark body. -/
def payload33 : Payload := ⟨sample33, none⟩

/-- A freshly initialized server in bvh mode: no clients yet. -/
noncomputable def serverB0 : MocapWebSocketServer := MocapWebSocketServer.init "bvh"

/-- A bvh-mode server with one healthy connected client. -/
noncomputable def serverB1 : MocapWebSocketServer :=
  ⟨[⟨1, false⟩], "bvh", BVHExporter.init⟩

/-- A json-mode server with one broken client and one healthy client. -/
noncomputable def serverJ2 : MocapWebSocketServer :=
  ⟨[⟨1, true⟩, ⟨2, false⟩], "json", BVHExporter.init⟩

/-- A bvh-mode server whose accumulator already holds one 51-scalar frame. -/
noncomputable def serverB1f : MocapWebSocketServer :=
  ⟨[⟨1, false⟩], "bvh", ⟨0.033333, [List.replicate 51 0], skeletonHierarchy, "0.033333"⟩⟩

/-! Helper lemmas. -/

set_option maxRecDepth 20000 in
/-- The declared channel total of the canonical hierarchy evaluates to 51. -/
theorem channelTotal_value : channelTotal skeletonHierarchy = 51 := by decide

theorem calc_bone_rot_length (p q : Vec3) : (calc_bone_rot p q).length = 3 := by
  simp only [calc_bone_rot]
  split <;> rfl

theorem calc_rotation_from_points_length (l r f : Vec3) :
    (calc_rotation_from_points l r f).length = 3 := rfl

/-- Every channel vector the converter produces has exactly 51 scalars. -/
theorem landmarks_to_bvh_frame_length (l : List Landmark) :
    (landmarks_to_bvh_frame l).length = 51 := by
  simp [landmarks_to_bvh_frame, List.length_append, calc_bone_rot_length,
    calc_rotation_from_points_length]

theorem le_clip (a : ℝ) : -180 ≤ clip a (-180) 180 :=
  le_min (le_max_right a (-180)) (by norm_num)

theorem clip_le (a : ℝ) : clip a (-180) 180 ≤ 180 := min_le_right _ _

/-- A frame-list invariant survives one `add_frame` call. -/
theorem add_frame_frames_length (e : BVHExporter) (l : List Landmark)
    (h : ∀ f ∈ e.frames, f.length = 51) :
    ∀ f ∈ (add_frame e l).frames, f.length = 51 := by
  intro f hf
  by_cases hl : l.length < 33
  · simp only [add_frame, if_pos hl] at hf
    exact h f hf
  · simp only [add_frame, if_neg hl, List.mem_append, List.mem_singleton] at hf
    rcases hf with hf | rfl
    · exact h f hf
    · exact landmarks_to_bvh_frame_length l

/-- Every delivery produced by one fan-out carries the broadcast message. -/
theorem deliveries_snd (cs : List Client) (m : Message) :
    ∀ d ∈ deliveries cs m, d.2 = m := by
  induction cs with
  | nil => simp [deliveries, gatherRE]
  | cons c cs ih =>
    intro d hd
    by_cases hc : c.sendFails
    · simp only [deliveries, gatherRE, List.map_cons, List.filterMap_cons,
        clientSend, if_pos hc, Except.toOption] at hd
      exact ih d hd
    · simp only [deliveries, gatherRE, List.map_cons, List.filterMap_cons,
        clientSend, if_neg hc, Except.toOption] at hd
      rcases List.mem_cons.mp hd with rfl | hd2
      · rfl
      · exact ih d hd2

/-- Every healthy client of the registry receives the broadcast message. -/
theorem mem_deliveries (cs : List Client) (m : Message) (c : Client)
    (hc : c ∈ cs) (hf : c.sendFails = false) : (c.id, m) ∈ deliveries cs m := by
  induction cs with
  | nil => cases hc
  | cons a cs ih =>
    by_cases ha : a.sendFails
    · simp only [deliveries, gatherRE, List.map_cons, List.filterMap_cons,
        clientSend, if_pos ha, Except.toOption]
      rcases List.mem_cons.mp hc with rfl | hc2
      · rw [hf] at ha; cases ha
      · exact ih hc2
    · simp only [deliveries, gatherRE, List.map_cons, List.filterMap_cons,
        clientSend, if_neg ha, Except.toOption]
      rcases List.mem_cons.mp hc with rfl | hc2
      · exact List.mem_cons_self _ _
      · exact List.mem_cons_of_mem _ (ih hc2)

/-! Branch equations for `send_data`. -/

theorem send_data_no_clients (s : MocapWebSocketServer) (data : Payload)
    (h : s.clients.isEmpty = true) : send_data s data = .ok (s, []) := by
  simp [send_data, h]

theorem send_data_json (s : MocapWebSocketServer) (data : Payload)
    (h1 : s.clients.isEmpty = false) (h2 : s.format = "json") :
    send_data s data =
      .ok (s, deliveries s.clients (.passthrough data.timestamp data.body)) := by
  simp [send_data, h1, h2]

theorem send_data_bvh_valid (s : MocapWebSocketServer) (data : Payload)
    (h1 : s.clients.isEmpty = false) (h2 : s.format = "bvh")
    (h3 : data.body.isEmpty = false) (h4 : data.body.length = 33) :
    send_data s data =
      .ok ({ s with bvh_exporter := add_frame s.bvh_exporter data.body },
        deliveries s.clients
          (.ack (add_frame s.bvh_exporter data.body).frames.length
            (data.timestamp.getD 0))) := by
  simp [send_data, h1, h2, h3, h4]

theorem send_data_bvh_invalid (s : MocapWebSocketServer) (data : Payload)
    (h1 : s.clients.isEmpty = false) (h2 : s.format = "bvh")
    (h3 : data.body.length ≠ 33) :
    send_data s data = .ok (s, []) := by
  simp [send_data, h1, h2, h3]

theorem send_data_other (s : MocapWebSocketServer) (data : Payload)
    (h1 : s.clients.isEmpty = false) (h2 : s.format ≠ "json") (h3 : s.format ≠ "bvh") :
    send_data s data =
      .ok (s, deliveries s.clients (.passthrough data.timestamp data.body)) := by
  simp [send_data, h1, h2, h3]

/-- `send_data` always returns normally: the client set is untouched and the
deliveries are a fan-out of one single message (or none at all). -/
theorem send_data_ok (s : MocapWebSocketServer) (data : Payload) :
    ∃ s2 ds, send_data s data = .ok (s2, ds) ∧ s2.clients = s.clients ∧
      (ds = [] ∨ ∃ m, ds = deliveries s.clients m) := by
  by_cases h1 : s.clients.isEmpty
  · exact ⟨s, [], send_data_no_clients s data h1, rfl, Or.inl rfl⟩
  · rw [Bool.not_eq_true] at h1
    by_cases h2 : s.format = "json"
    · exact ⟨s, _, send_data_json s data h1 h2, rfl, Or.inr ⟨_, rfl⟩⟩
    · by_cases h3 : s.format = "bvh"
      · by_cases h4 : data.body.length = 33
        · have h5 : data.body.isEmpty = false := by
            cases hb : data.body with
            | nil => rw [hb] at h4; simp at h4
            | cons a t => rfl
          exact ⟨_, _, send_data_bvh_valid s data h1 h3 h5 h4, rfl, Or.inr ⟨_, rfl⟩⟩
        · exact ⟨s, [], send_data_bvh_invalid s data h1 h3 h4, rfl, Or.inl rfl⟩
      · exact ⟨s, _, send_data_other s data h1 h2 h3, rfl, Or.inr ⟨_, rfl⟩⟩

theorem fracDigits_length (m : Nat) : (fracDigits m).length = 6 := by
  simp [fracDigits, String.length]

theorem digitChar_isDigit : ∀ m : Nat, m < 10 → (Nat.digitChar m).isDigit = true := by
  decide

theorem fracDigits_toList (m : Nat) :
    (fracDigits m).toList =
      (List.range 6).map (fun i => Nat.digitChar (m / 10 ^ (5 - i) % 10)) := rfl

theorem fracDigits_all_digit (m : Nat) :
    (fracDigits m).toList.all Char.isDigit = true := by
  rw [fracDigits_toList, List.all_eq_true]
  intro c hc
  rcases List.mem_map.mp hc with ⟨i, _, rfl⟩
  exact digitChar_isDigit _ (Nat.mod_lt _ (by norm_num))

/-- Shape of the `.6f` output: some sign-and-integer part, a dot, then
exactly six decimal digits. -/
theorem fmt6_shape (x : ℝ) :
    ∃ pre post : String, fmt6 x = pre ++ ("." ++ post) ∧ post.length = 6 ∧
      post.toList.all Char.isDigit = true := by
  refine ⟨(if round (x * 1000000) < 0 then "-" else "")
      ++ toString ((round (x * 1000000)).natAbs / 1000000),
    fracDigits ((round (x * 1000000)).natAbs % 1000000), ?_, fracDigits_length _,
    fracDigits_all_digit _⟩
  simp [fmt6, String.append_assoc]

/-! Claim theorems. -/

/-- C1, counterexample: the canonical hierarchy does not declare 57 channels,
and the frame vector built from a valid 33-landmark frame does not hold 57
values either. -/
theorem claim_C1_counterexample :
    channelTotal skeletonHierarchy ≠ 57 ∧
      (landmarks_to_bvh_frame sample33).length ≠ 57 := by
  constructor
  · rw [channelTotal_value]; omega
  · rw [landmarks_to_bvh_frame_length]; omega

/-- C1 (amended): for the canonical skeleton hierarchy the total channel
count is 51 scalars (3 position channels plus 16 rotation triples), and every
frame vector produced from a valid 33-landmark frame contains exactly that
total number of values. -/
theorem claim_C1 :
    channelTotal skeletonHierarchy = 3 + 16 * 3 ∧
      ∀ l : List Landmark, l.length = 33 →
        (landmarks_to_bvh_frame l).length = 3 + 16 * 3 := by
  refine ⟨by rw [channelTotal_value], fun l _ => ?_⟩
  rw [landmarks_to_bvh_frame_length]

/-- C1, witness: the amended claim evaluated on a concrete 33-landmark frame. -/
theorem claim_C1_witness :
    sample33.length = 33 ∧ (landmarks_to_bvh_frame sample33).length = 3 + 16 * 3 :=
  ⟨by simp [sample33], claim_C1.2 sample33 (by simp [sample33])⟩

/-- C6: whenever the bone direction is shorter than the 0.001 threshold, the
two-point solver returns exactly (0, 0, 0); the normalization division sits
in the other branch and is never reached for such input. -/
theorem claim_C6 (fromPos toPos : Vec3)
    (h : vnorm (Vec3.sub toPos fromPos) < 0.001) :
    calc_bone_rot fromPos toPos = [0, 0, 0] := by
  simp only [calc_bone_rot]
  rw [if_pos h]

/-- C6, witness: the degenerate call on two equal points, as in
fromTwoPoints(p, p). -/
theorem claim_C6_witness :
    vnorm (Vec3.sub ⟨0, 0, 0⟩ ⟨0, 0, 0⟩) < 0.001 ∧
      calc_bone_rot ⟨0, 0, 0⟩ ⟨0, 0, 0⟩ = [0, 0, 0] := by
  have h : vnorm (Vec3.sub ⟨0, 0, 0⟩ ⟨0, 0, 0⟩) < 0.001 := by
    simp [vnorm, Vec3.sub]
    norm_num
  exact ⟨h, claim_C6 _ _ h⟩

/-- C7: the two-point solver always returns a channel triple whose twist (Z)
entry is exactly 0 and whose X and Y entries are clamped into [-180, 180];
the three-point torso solver always returns pitch (X) and roll (Z) exactly 0,
leaving only yaw (Y) possibly nonzero. -/
theorem claim_C7 :
    (∀ fromPos toPos : Vec3, ∃ ax ay : ℝ,
      calc_bone_rot fromPos toPos = [0, ax, ay] ∧
        -180 ≤ ax ∧ ax ≤ 180 ∧ -180 ≤ ay ∧ ay ≤ 180) ∧
    (∀ left right front : Vec3, ∃ ay : ℝ,
      calc_rotation_from_points left right front = [0, 0, ay]) := by
  constructor
  · intro p q
    by_cases h : vnorm (Vec3.sub q p) < 0.001
    · refine ⟨0, 0, ?_, by norm_num, by norm_num, by norm_num, by norm_num⟩
      simp only [calc_bone_rot]
      rw [if_pos h]
    · simp only [calc_bone_rot]
      rw [if_neg h]
      exact ⟨_, _, rfl, le_clip _, clip_le _, le_clip _, clip_le _⟩
  · intro l r f
    exact ⟨_, rfl⟩

/-- C10: every frame vector ever appended by any sequence of add_frame calls
on a fresh exporter has the same fixed length of 3 + 16 * 3 = 51 scalars. -/
theorem claim_C10 (lss : List (List Landmark)) :
    ∀ f ∈ (lss.foldl add_frame BVHExporter.init).frames, f.length = 3 + 16 * 3 := by
  have key : ∀ (e : BVHExporter), (∀ f ∈ e.frames, f.length = 51) →
      ∀ f ∈ (lss.foldl add_frame e).frames, f.length = 51 := by
    induction lss with
    | nil => intro e he; simpa using he
    | cons l ls ih =>
      intro e he
      exact ih _ (add_frame_frames_length e l he)
  intro f hf
  have h51 := key BVHExporter.init (by simp [BVHExporter.init]) f hf
  omega

/-- C10, witness: one accepted frame in a fresh exporter has 51 scalars. -/
theorem claim_C10_witness :
    landmarks_to_bvh_frame sample33 ∈
        ([sample33].foldl add_frame BVHExporter.init).frames ∧
      (landmarks_to_bvh_frame sample33).length = 3 + 16 * 3 := by
  have hmem : landmarks_to_bvh_frame sample33 ∈
      ([sample33].foldl add_frame BVHExporter.init).frames := by
    simp [add_frame, BVHExporter.init, sample33]
  exact ⟨hmem, claim_C10 [sample33] _ hmem⟩

/-- C3, counterexample: a 34-entry landmark list is not rejected by
add_frame; it is converted and appended, changing the accumulated list. -/
theorem claim_C3_counterexample :
    (add_frame BVHExporter.init sample34).frames.length ≠
      BVHExporter.init.frames.length := by
  simp [add_frame, sample34, BVHExporter.init]

/-- C3 (amended): add_frame rejects exactly the landmark lists with fewer
than 33 entries, leaving the accumulated list unchanged; a list with 33 or
more entries (longer ones included) has its converted vector appended.  In
bvh mode send_data neither accumulates nor broadcasts when the body length
differs from 33. -/
theorem claim_C3 (e e2 : BVHExporter) (l l2 : List Landmark)
    (s : MocapWebSocketServer) (p : Payload)
    (hl : l.length < 33) (hl2 : 33 ≤ l2.length)
    (hfmt : s.format = "bvh") (hp : p.body.length ≠ 33) :
    add_frame e l = e ∧
      (add_frame e2 l2).frames = e2.frames ++ [landmarks_to_bvh_frame l2] ∧
      send_data s p = .ok (s, []) := by
  refine ⟨by simp [add_frame, hl], by simp [add_frame, Nat.not_lt.mpr hl2], ?_⟩
  by_cases hc : s.clients.isEmpty
  · exact send_data_no_clients s p hc
  · exact send_data_bvh_invalid s p (Bool.not_eq_true _ ▸ hc) hfmt hp

/-- C3, witness: the amended claim evaluated on an empty landmark list, a
34-entry list, and a bvh server receiving a 34-entry body. -/
theorem claim_C3_witness :
    ([] : List Landmark).length < 33 ∧ 33 ≤ sample34.length ∧
      serverB1.format = "bvh" ∧ (Payload.mk sample34 none).body.length ≠ 33 ∧
      (add_frame BVHExporter.init [] = BVHExporter.init ∧
        (add_frame BVHExporter.init sample34).frames =
          BVHExporter.init.frames ++ [landmarks_to_bvh_frame sample34] ∧
        send_data serverB1 ⟨sample34, none⟩ = .ok (serverB1, [])) :=
  ⟨by norm_num, by simp [sample34], rfl, by simp [sample34],
    claim_C3 BVHExporter.init BVHExporter.init [] sample34 serverB1 ⟨sample34, none⟩
      (by norm_num) (by simp [sample34]) rfl (by simp [sample34])⟩

/-- C2, counterexample: a publish call in bvh mode with a valid 33-landmark
body but no connected client appends nothing to the accumulator and
broadcasts nothing, refuting the claim for that call. -/
theorem claim_C2_counterexample :
    send_data serverB0 payload33 = .ok (serverB0, []) ∧
      serverB0.bvh_exporter.frames.length = 0 := by
  constructor
  · exact send_data_no_clients serverB0 payload33 rfl
  · rfl

/-- C2 (amended): for every publish call in bvh mode with at least one
connected client and a 33-landmark body, exactly one frame is appended to
the accumulator and every delivered message is the acknowledgment carrying
the accumulated frame count and the payload timestamp, never the landmark
payload; with zero connected clients such a call accumulates and broadcasts
nothing. -/
theorem claim_C2 (s : MocapWebSocketServer) (data : Payload)
    (hfmt : s.format = "bvh") (hc : s.clients.isEmpty = false)
    (hb : data.body.length = 33) :
    ∃ s2 ds, send_data s data = .ok (s2, ds) ∧
      s2.bvh_exporter.frames =
        s.bvh_exporter.frames ++ [landmarks_to_bvh_frame data.body] ∧
      ∀ d ∈ ds,
        d.2 = Message.ack (s.bvh_exporter.frames.length + 1) (data.timestamp.getD 0) := by
  have hne : data.body.isEmpty = false := by
    cases hb2 : data.body with
    | nil => rw [hb2] at hb; simp at hb
    | cons a t => rfl
  have hguard : ¬data.body.length < 33 := by omega
  have hadd : (add_frame s.bvh_exporter data.body).frames =
      s.bvh_exporter.frames ++ [landmarks_to_bvh_frame data.body] := by
    simp [add_frame, hguard]
  refine ⟨_, _, send_data_bvh_valid s data hc hfmt hne hb, hadd, ?_⟩
  intro d hd
  have := deliveries_snd s.clients _ d hd
  rw [this, hadd]
  simp

/-- C2, witness: the amended claim evaluated on a bvh server with one healthy
client and a 33-landmark payload. -/
theorem claim_C2_witness :
    serverB1.format = "bvh" ∧ serverB1.clients.isEmpty = false ∧
      payload33.body.length = 33 ∧
      (∃ s2 ds, send_data serverB1 payload33 = .ok (s2, ds) ∧
        s2.bvh_exporter.frames =
          serverB1.bvh_exporter.frames ++ [landmarks_to_bvh_frame payload33.body] ∧
        ∀ d ∈ ds,
          d.2 = Message.ack (serverB1.bvh_exporter.frames.length + 1)
            (payload33.timestamp.getD 0)) :=
  ⟨rfl, rfl, by simp [payload33, sample33],
    claim_C2 serverB1 payload33 rfl rfl (by simp [payload33, sample33])⟩

/-- C8: publishing while the client registry is empty returns successfully in
every transport mode: no exception, no message, no state change. -/
theorem claim_C8 (s : MocapWebSocketServer) (data : Payload)
    (h : s.clients.isEmpty = true) :
    send_data s data = .ok (s, []) :=
  send_data_no_clients s data h

/-- C8, witness: concrete empty-registry publishes in json mode and in bvh
mode both return ok with no deliveries. -/
theorem claim_C8_witness :
    (MocapWebSocketServer.init "json").clients.isEmpty = true ∧
      send_data (MocapWebSocketServer.init "json") payload33 =
        .ok (MocapWebSocketServer.init "json", []) ∧
      send_data serverB0 payload33 = .ok (serverB0, []) :=
  ⟨rfl, claim_C8 (MocapWebSocketServer.init "json") payload33 rfl,
    claim_C8 serverB0 payload33 rfl⟩

/-- C9: when a send to one connected client fails during a publish, the call
still returns normally (the gather swallows the per-client exception), every
delivered message reaches every other healthy connected client, and once the
handler of the broken connection runs its cleanup that client is no longer in
the registry. -/
theorem claim_C9 (s : MocapWebSocketServer) (data : Payload) (c : Client)
    (hc : c ∈ s.clients) (hf : c.sendFails = true) :
    ∃ s2 ds, send_data s data = .ok (s2, ds) ∧
      (∀ d ∈ ds, ∀ c2 ∈ s.clients, c2.sendFails = false → (c2.id, d.2) ∈ ds) ∧
      c ∉ (handlerCleanup s2).clients := by
  obtain ⟨s2, ds, heq, hcl, hds⟩ := send_data_ok s data
  refine ⟨s2, ds, heq, ?_, ?_⟩
  · intro d hd c2 hc2 hf2
    rcases hds with rfl | ⟨m, rfl⟩
    · cases hd
    · rw [deliveries_snd s.clients m d hd]
      exact mem_deliveries s.clients m c2 hc2 hf2
  · intro hmem
    rw [handlerCleanup, hcl] at hmem
    have := List.of_mem_filter hmem
    rw [hf] at this
    cases this

/-- C9, witness: a json-mode publish on a server with one broken and one
healthy client. -/
theorem claim_C9_witness :
    (⟨1, true⟩ : Client) ∈ serverJ2.clients ∧ (⟨1, true⟩ : Client).sendFails = true ∧
      (∃ s2 ds, send_data serverJ2 payload33 = .ok (s2, ds) ∧
        (∀ d ∈ ds, ∀ c2 ∈ serverJ2.clients, c2.sendFails = false → (c2.id, d.2) ∈ ds) ∧
        (⟨1, true⟩ : Client) ∉ (handlerCleanup s2).clients) :=
  ⟨by simp [serverJ2], rfl,
    claim_C9 serverJ2 payload33 ⟨1, true⟩ (by simp [serverJ2]) rfl⟩

/-- C4, counterexample: with zero accumulated frames, export writes no file
content at all and get_bvh_data returns the empty string, so no rendered
output containing a Frames: 0 line exists. -/
theorem claim_C4_counterexample :
    exportString BVHExporter.init = none ∧ get_bvh_data serverB0 = "" := by
  constructor
  · simp [exportString, BVHExporter.init]
  · simp [get_bvh_data, serverB0, MocapWebSocketServer.init, BVHExporter.init]

/-- C4 (amended): when the accumulator holds zero frames, no serialized
output is produced at all: export returns early without writing, and
get_bvh_data returns the empty string; in particular the output contains
neither a Frames: 0 line nor any frame-data line. -/
theorem claim_C4 (e : BVHExporter) (s : MocapWebSocketServer)
    (he : e.frames.isEmpty = true) (hs : s.bvh_exporter.frames.isEmpty = true) :
    exportString e = none ∧ get_bvh_data s = "" := by
  constructor
  · simp [exportString, he]
  · simp [get_bvh_data, hs]

/-- C4, witness: the amended claim on a fresh exporter and a fresh server. -/
theorem claim_C4_witness :
    BVHExporter.init.frames.isEmpty = true ∧
      serverB0.bvh_exporter.frames.isEmpty = true ∧
      (exportString BVHExporter.init = none ∧ get_bvh_data serverB0 = "") :=
  ⟨rfl, rfl, claim_C4 BVHExporter.init serverB0 rfl rfl⟩

/-- C5: after K accepted frames (K at least 1), both serializers carry a
Frames: K line and exactly K motion-data lines, each line being that frame's
scalars formatted with .6f (a dot followed by exactly six decimal digits)
joined by single spaces. -/
theorem claim_C5 (s : MocapWebSocketServer) (K : Nat)
    (hfmt : s.format = "bvh") (hK : 1 ≤ K)
    (hlen : s.bvh_exporter.frames.length = K) :
    ("Frames: " ++ toString K) ∈ build_bvh_lines s ∧
      (build_bvh_lines s).drop 4 = s.bvh_exporter.frames.map frameLine ∧
      ((build_bvh_lines s).drop 4).length = K ∧
      (∀ f ∈ s.bvh_exporter.frames,
        frameLine f = String.intercalate " " (f.map fmt6) ∧
          (f.map fmt6).length = f.length) ∧
      (∀ x : ℝ, ∃ pre post : String, fmt6 x = pre ++ ("." ++ post) ∧
        post.length = 6 ∧ post.toList.all Char.isDigit = true) ∧
      get_bvh_data s = String.intercalate "\n" (build_bvh_lines s) ∧
      exportString s.bvh_exporter = some (s.bvh_exporter.skeleton ++ "\n" ++ "MOTION\n"
        ++ "Frames: " ++ toString K ++ "\n"
        ++ "Frame Time: " ++ s.bvh_exporter.frame_time_repr ++ "\n"
        ++ String.join (s.bvh_exporter.frames.map (fun f => frameLine f ++ "\n"))) := by
  subst hlen
  have hne : s.bvh_exporter.frames.isEmpty = false := by
    cases hfr : s.bvh_exporter.frames with
    | nil => rw [hfr] at hK; simp at hK
    | cons a t => rfl
  refine ⟨?_, ?_, ?_, ?_, fmt6_shape, ?_, ?_⟩
  · simp [build_bvh_lines]
  · simp [build_bvh_lines]
  · simp [build_bvh_lines]
  · intro f _
    exact ⟨rfl, by simp⟩
  · simp [get_bvh_data, hfmt, hne, build_bvh_string]
  · simp only [exportString]
    rw [if_neg (by simp [hne])]

/-- C5, witness: the claim on a bvh server holding one 51-scalar frame. -/
theorem claim_C5_witness :
    serverB1f.format = "bvh" ∧ 1 ≤ 1 ∧ serverB1f.bvh_exporter.frames.length = 1 ∧
      (("Frames: " ++ toString 1) ∈ build_bvh_lines serverB1f ∧
        (build_bvh_lines serverB1f).drop 4 =
          serverB1f.bvh_exporter.frames.map frameLine ∧
        ((build_bvh_lines serverB1f).drop 4).length = 1 ∧
        (∀ f ∈ serverB1f.bvh_exporter.frames,
          frameLine f = String.intercalate " " (f.map fmt6) ∧
            (f.map fmt6).length = f.length) ∧
        (∀ x : ℝ, ∃ pre post : String, fmt6 x = pre ++ ("." ++ post) ∧
          post.length = 6 ∧ post.toList.all Char.isDigit = true) ∧
        get_bvh_data serverB1f = String.intercalate "\n" (build_bvh_lines serverB1f) ∧
        exportString serverB1f.bvh_exporter =
          some (serverB1f.bvh_exporter.skeleton ++ "\n" ++ "MOTION\n"
            ++ "Frames: " ++ toString 1 ++ "\n"
            ++ "Frame Time: " ++ serverB1f.bvh_exporter.frame_time_repr ++ "\n"
            ++ String.join (serverB1f.bvh_exporter.frames.map
                (fun f => frameLine f ++ "\n")))) :=
  ⟨rfl, by norm_num, rfl, claim_C5 serverB1f 1 rfl (by norm_num) rfl⟩

end Mocap
